import Mathlib

/-!
# install.js : the provisioning orchestrator

A shallow embedding of `install.js`.  The script is one thread of control that
talks to collaborators (prompt, file system, framework installer, tenant and
user managers, storage layer) and keeps three module-level variables
(`masterTenant`, `superUser`, `configResults`).

* The answers of the collaborators are the fields of `World`.
* The module-level variables are the fields of `RunState`.
* Every collaborator call and every console line is recorded as an `Event`,
  in program order.
* A task of `async.series` is a function `World → RunState → StepResult`.
-/

namespace Install

set_option autoImplicit false

/-! ## Values and objects -/

/-- Error values handed to callbacks (always truthy where they occur). -/
abbrev Err := String

/-- The JavaScript values a configuration record holds. -/
inductive Val where
  | str (s : String)
  | num (n : Int)
  | bool (b : Bool)
  | undefined
  deriving DecidableEq

/-- String coercion of a value, as performed by `key + "=" + config[key]`. -/
def Val.toJsString : Val → String
  | .str s => s
  | .num n => toString n
  | .bool true => "true"
  | .bool false => "false"
  | .undefined => "undefined"

/-- A plain object with string keys: its own properties in insertion order. -/
abbrev Obj := List (String × Val)

/-- Own-property lookup: `none` when the object has no such key. -/
def lookupKey : Obj → String → Option Val
  | [], _ => none
  | (k, v) :: rest, key => if k = key then some v else lookupKey rest key

/-- Property read `o[key]`: a missing key reads as `undefined`. -/
def getProp (o : Obj) (key : String) : Val :=
  (lookupKey o key).getD Val.undefined

/-- Property write `o[key] = v`: overwrite in place, or append a new key. -/
def assignKey : Obj → String → Val → Obj
  | [], key, v => [(key, v)]
  | (k, x) :: rest, key, v =>
    if k = key then (k, v) :: rest else (k, x) :: assignKey rest key v

/-- Property removal `delete o[key]`. -/
def deleteKey : Obj → String → Obj
  | [], _ => []
  | (k, x) :: rest, key =>
    if k = key then deleteKey rest key else (k, x) :: deleteKey rest key

/-- The keys of an object, `Object.keys(o)`. -/
def objectKeys (o : Obj) : List String := o.map Prod.fst

/-! ## Run state, collaborators, events -/

/-- A tenant record as returned by the tenant manager. -/
structure Tenant where
  name : String
  _id : String
  deriving DecidableEq

/-- A user record as returned by the local auth plugin. -/
structure User where
  _id : String
  deriving DecidableEq

/-- The module-level variables of the script. -/
structure RunState where
  masterTenant : Option Tenant
  superUser : Option User
  configResults : Option Obj
  deriving DecidableEq

/-- The values the variables are declared with: `false`, `false`, and no value. -/
def initialState : RunState :=
  { masterTenant := none, superUser := none, configResults := none }

/-- Which call of `saveConfig` is writing. -/
inductive SaveSite where
  | fromConfigureEnvironment
  | fromCreateTenant
  deriving DecidableEq

/-- Answers to the tenant prompt. -/
structure TenantAnswers where
  name : String
  displayName : String
  deriving DecidableEq

/-- Answers to the super user prompt. -/
structure Credentials where
  email : String
  password : String
  retypePassword : String
  deriving DecidableEq

/-- Everything the script observes from outside itself. -/
structure World where
  /-- Value of `process.argv.length === 2`. -/
  IS_INTERACTIVE : Bool
  /-- Value of `process.cwd()`. -/
  cwd : String
  /-- Value of `app.polyglot.t` for the product name. -/
  productName : String
  /-- Answer to the `install` prompt (an error leaves `result` undefined). -/
  installPrompt : Except Err String
  /-- Result of `installHelpers.getLatestFrameworkVersion`. -/
  getLatestFrameworkVersion : Except Err String
  /-- Result of the sixteen-item configuration prompt, given the default it
  shows for `frameworkRevision`. -/
  configPrompt : String → Except Err Obj
  /-- Bytes reported by `fs.writeSync` for `.env`. -/
  envBytes : SaveSite → Nat
  /-- Bytes reported by `fs.writeSync` for `conf/config.json`. -/
  jsonBytes : SaveSite → Nat
  /-- Error reported by `installHelpers.installFramework`, if any. -/
  installFrameworkError : Option Err
  /-- Whether `app` emits `serverStarted` after `app.run()`. -/
  serverStarted : Bool
  /-- Result of the tenant name prompt. -/
  tenantPrompt : Except Err TenantAnswers
  /-- Result of `app.tenantmanager.retrieveTenant` by name. -/
  retrieveTenant : String → Except Err (Option Tenant)
  /-- Settings held by `app.configuration` when the tenant is created. -/
  appConfig : Obj
  /-- Result of `app.tenantmanager.createTenant`. -/
  createTenantResult : Except Err Tenant
  /-- Result of the `confirm` prompt. -/
  confirmPrompt : Except Err String
  /-- Whether `app.db` is set once the server has started. -/
  appDb : Bool
  /-- Value of `app.db.getModelNames()`. -/
  getModelNames : List String
  /-- Error reported by `app.db.destroy(model, query)`, if any. -/
  dbDestroy : String → Option String → Option Err
  /-- Result of the super user prompt. -/
  credentialPrompt : Except Err Credentials
  /-- Error reported by `app.usermanager.deleteUser` for an email, if any. -/
  deleteUser : String → Option Err
  /-- Result of `localAuth.internalRegisterUser`. -/
  internalRegisterUser : Except Err User
  /-- Error reported by `helpers.grantSuperPermissions` for a user id, if any. -/
  grantSuperPermissions : String → Option Err

/-- Observable actions of the script, in program order. -/
inductive Event where
  /-- A line printed by `console.log(text)` or `console.error(text)`. -/
  | log (text : String)
  /-- The line printed by `console.error` for an error value. -/
  | logError (error : Err)
  /-- A call of `prompt.get` for the named properties. -/
  | prompt (names : List String)
  | getLatestFrameworkVersion
  /-- The write of the joined `KEY=value` lines to `.env`. -/
  | writeEnv (content : String)
  /-- The write of `JSON.stringify(config)` to `conf/config.json`. -/
  | writeJson (config : Obj)
  /-- The call of `installHelpers.installFramework` with its options. -/
  | installFramework (repository revision : Val) (force : Bool)
  | loggerClear
  | appRun
  | retrieveTenant (name : String)
  /-- The call of `app.tenantmanager.createTenant` with name, display name and
  database descriptor. -/
  | createTenant (name displayName : String) (database : Obj)
  | getModelNames
  /-- The call `app.db.destroy(model, query)`; the query is `null` or an `_id`. -/
  | dbDestroy (model : String) (queryId : Option String)
  | deleteUser (email : String)
  /-- The call of `internalRegisterUser` with email, password, retyped password
  and `_tenantId`. -/
  | registerUser (email password retypePassword : String) (tenantId : Option String)
  | grantSuperPermissions (userId : String)
  deriving DecidableEq

/-- How the process ends. -/
inductive Outcome where
  /-- The process ended through `process.exit(code)`. -/
  | exit (code : Nat)
  /-- An exception was thrown that nothing catches. -/
  | uncaught (error : String)
  /-- The awaited event never fires. -/
  | waiting
  deriving DecidableEq

/-- What one task of the series does with its callback. -/
inductive StepResult where
  /-- The task called `callback()`. -/
  | next (s : RunState) (trace : List Event)
  /-- The task called `callback(error)`. -/
  | fail (error : Err) (s : RunState) (trace : List Event)
  /-- The process ended inside the task. -/
  | halt (o : Outcome) (trace : List Event)
  deriving DecidableEq

/-- The events of a task. -/
def StepResult.trace : StepResult → List Event
  | .next _ tr => tr
  | .fail _ _ tr => tr
  | .halt _ tr => tr

/-- Put earlier events in front of a task result. -/
def StepResult.prepend (pre : List Event) : StepResult → StepResult
  | .next s tr => .next s (pre ++ tr)
  | .fail e s tr => .fail e s (pre ++ tr)
  | .halt o tr => .halt o (pre ++ tr)

/-- A whole run: its events and the way the process ended. -/
structure Run where
  trace : List Event
  outcome : Outcome
  deriving DecidableEq

/-! ## Regular expressions used on prompt answers -/

def isYChar (c : Char) : Bool := c = 'Y' || c = 'y'

def isEsChar (c : Char) : Bool := c = 'e' || c = 's'

/-- The test `/(Y|y)[es]*$/`: some Y or y followed only by e and s up to the end. -/
def matchesYesAtEnd : List Char → Bool
  | [] => false
  | c :: cs => (isYChar c && cs.all isEsChar) || matchesYesAtEnd cs

/-- The test `/(Y|y)[es]*/`: some Y or y anywhere. -/
def matchesYes (cs : List Char) : Bool := cs.any isYChar

/-! ## saveConfig -/

/-- The lines pushed to `env`, joined with newlines. -/
def envContent (config : Obj) : String :=
  String.intercalate "\n"
    ((objectKeys config).map (fun key => key ++ "=" ++ (getProp config key).toJsString))

/-- The object `saveConfig` passes to `JSON.stringify`: the clone of the
record after the injections, the removal and the conditional flag. -/
def structuredConfig (cwd : String) (configItems : Obj) : Obj :=
  let config := configItems
  let config := assignKey config "outputPlugin" (Val.str "adapt")
  let config := assignKey config "dbType" (Val.str "mongoose")
  let config := assignKey config "auth" (Val.str "local")
  let config := assignKey config "root" (Val.str cwd)
  let config := deleteKey config "frameworkRevision"
  if getProp config "smtpService" ≠ Val.str "" then
    assignKey config "useSmtp" (Val.bool true)
  else config

/-- The function `saveConfig`: events, and `some outcome` when it ends the process
instead of calling back. -/
def saveConfig (w : World) (site : SaveSite) (configItems : Obj) :
    List Event × Option Outcome :=
  let config := configItems
  let t1 := [Event.writeEnv (envContent config)]
  if w.envBytes site = 0 then
    (t1 ++ [Event.log "ERROR: Failed to write .env file. Do you have write permissions for the current directory?"],
      some (Outcome.exit 1))
  else
    let t2 := t1 ++ [Event.writeJson (structuredConfig w.cwd configItems)]
    if w.jsonBytes site = 0 then
      (t2 ++ [Event.log "ERROR: Failed to write conf/config.json file. Do you have write permissions for the directory?"],
        some (Outcome.exit 1))
    else (t2, none)

/-! ## exitInstall -/

/-- The function `exitInstall`; `none` stands for an omitted argument. The colour
chalk adds to the message is not recorded. -/
def exitInstall (w : World) (s : RunState) (code : Option Nat) (msg : Option String) :
    List Event × Outcome :=
  let code := code.getD 0
  let msg := match msg with
    | some m => if m = "" then "Bye!" else m
    | none => "Bye!"
  let said := [Event.log ("\n" ++ msg ++ "\n")]
  match s.masterTenant with
  | some tenant =>
    if code ≠ 0 ∧ w.appDb = true then
      match s.superUser with
      | none => (said ++ [Event.dbDestroy "tenant" (some tenant._id)], Outcome.exit code)
      | some user =>
        (said ++ [Event.dbDestroy "tenant" (some tenant._id),
                  Event.dbDestroy "user" (some user._id)], Outcome.exit code)
    else (said, Outcome.exit code)
  | none => (said, Outcome.exit code)

/-! ## The five tasks -/

/-- The property names of the configuration prompt, in order. -/
def configItemNames : List String :=
  ["serverPort", "serverName", "dbHost", "dbName", "dbPort", "dataRoot", "sessionSecret",
   "useffmpeg", "smtpService", "smtpUsername", "smtpPassword", "fromAddress", "rootUrl",
   "authoringToolRepository", "frameworkRepository", "frameworkRevision"]

/-- The task `configureEnvironment`. The prompt results go to `saveConfig` only;
no module-level variable is written. -/
def configureEnvironment (w : World) (s : RunState) : StepResult :=
  let t0 := [Event.log (if w.IS_INTERACTIVE = false then "Now setting configuration items."
      else "We need to configure the tool before install. \nJust press ENTER to accept the default value (in brackets)."),
    Event.getLatestFrameworkVersion]
  match w.getLatestFrameworkVersion with
  | .error e =>
    let r := exitInstall w s (some 1) (some "Failed to get latest framework version")
    .halt r.2 (t0 ++ [Event.logError e] ++ r.1)
  | .ok latestFrameworkTag =>
    let t1 := t0 ++ [Event.prompt configItemNames]
    match w.configPrompt ("tags/" ++ latestFrameworkTag) with
    | .error e =>
      let r := exitInstall w s (some 1) (some "Failed to save configuration items.")
      .halt r.2 (t1 ++ [Event.logError e] ++ r.1)
    | .ok results =>
      match saveConfig w SaveSite.fromConfigureEnvironment results with
      | (tr, some o) => .halt o (t1 ++ tr)
      | (tr, none) => .next s (t1 ++ tr)

/-- The task `installFramework`. Reading a property of `configResults` while
it holds no value throws a TypeError before the installer is called. -/
def installFramework (w : World) (s : RunState) : StepResult :=
  match s.configResults with
  | none =>
    .halt (Outcome.uncaught "TypeError: Cannot read property \x27frameworkRepository\x27 of undefined") []
  | some configResults =>
    let t0 := [Event.installFramework (getProp configResults "frameworkRepository")
      (getProp configResults "frameworkRevision") true]
    match w.installFrameworkError with
    | some e =>
      let r := exitInstall w s (some 1)
        (some "Framework install failed. See console output for possible reasons.")
      .halt r.2 (t0 ++ [Event.logError e] ++ r.1)
    | none => .next s t0

/-- The local function `tenantExit` of `createTenant`. -/
def tenantExit (w : World) (s : RunState) (error : Err) : StepResult :=
  let r := exitInstall w s (some 1)
    (some "Failed to create master tenant. Please check the console output.")
  .halt r.2 ([Event.logError error] ++ r.1)

/-- The database descriptor handed to the tenant manager, read from `app.configuration`. -/
def databaseDescriptor (w : World) : Obj :=
  [("dbName", getProp w.appConfig "dbName"), ("dbHost", getProp w.appConfig "dbHost"),
   ("dbUser", getProp w.appConfig "dbUser"), ("dbPass", getProp w.appConfig "dbPass"),
   ("dbPort", getProp w.appConfig "dbPort")]

/-- Modelled from the spec: the configuration store `app.configuration` (lib code,
not under src/) after the two `setConfig` calls, as read back by `getConfig()`:
the tenant name and identifier are persisted back into the record. -/
def configWithTenant (w : World) (tenant : Tenant) : Obj :=
  assignKey (assignKey w.appConfig "masterTenantName" (Val.str tenant.name))
    "masterTenantID" (Val.str tenant._id)

/-- The local function `_createTenant` of `createTenant`, for the prompt answers. -/
def _createTenant (w : World) (s : RunState) (result : TenantAnswers) : StepResult :=
  let t0 := [Event.log ("Creating file system for master tenant (" ++ result.name ++ ")"),
    Event.createTenant result.name result.displayName (databaseDescriptor w)]
  match w.createTenantResult with
  | .error e => (tenantExit w s e).prepend t0
  | .ok tenant =>
    let s1 := { s with masterTenant := some tenant }
    let t1 := t0 ++ [Event.log ("Master tenant (" ++ tenant.name ++ ") was created."),
      Event.log "Now saving configuration"]
    match saveConfig w SaveSite.fromCreateTenant (configWithTenant w tenant) with
    | (tr, some o) => .halt o (t1 ++ tr)
    | (tr, none) => .next s1 (t1 ++ tr)

/-- The loop `async.eachSeries(names, destroy)`: destroy each model in order and
stop at the first error. -/
def destroyEachSeries (w : World) : List String → List Event × Option Err
  | [] => ([], none)
  | modelName :: rest =>
    match w.dbDestroy modelName none with
    | some e => ([Event.dbDestroy modelName none], some e)
    | none =>
      let r := destroyEachSeries w rest
      (Event.dbDestroy modelName none :: r.1, r.2)

/-- The task `createTenant`. -/
def createTenant (w : World) (s : RunState) : StepResult :=
  let t0 := [Event.log (if w.IS_INTERACTIVE = false then "Creating master tenant"
      else "Now we need to create the master tenant. \nJust press ENTER to accept the default value (in brackets)."),
    Event.loggerClear, Event.appRun]
  if w.serverStarted = false then .halt Outcome.waiting t0
  else
    let t1 := t0 ++ [Event.prompt ["name", "displayName"]]
    match w.tenantPrompt with
    | .error e => (tenantExit w s e).prepend t1
    | .ok result =>
      let t2 := t1 ++ [Event.retrieveTenant result.name]
      match w.retrieveTenant result.name with
      | .error e => (tenantExit w s e).prepend t2
      | .ok (some tenant) =>
        if w.IS_INTERACTIVE = false then
          let r := exitInstall w s (some 1)
            (some ("Tenant \x27" ++ tenant.name ++ "\x27 already exists, automatic install cannot continue."))
          .halt r.2 (t2 ++ r.1)
        else
          let t3 := t2 ++ [Event.log "Tenant already exists. It must be deleted for install to continue.",
            Event.prompt ["confirm"]]
          match w.confirmPrompt with
          | .error e => .fail e s (t3 ++ [Event.log ("ERROR: " ++ e)])
          | .ok confirm =>
            if matchesYes confirm.toList = false then
              let r := exitInstall w s (some 1) (some "Exiting install ... ")
              .halt r.2 (t3 ++ r.1)
            else if w.appDb = false then
              .halt (Outcome.uncaught "TypeError: Cannot read property \x27getModelNames\x27 of undefined") t3
            else
              let t4 := t3 ++ [Event.getModelNames]
              match destroyEachSeries w w.getModelNames with
              | (tr, some e) => .fail e s (t4 ++ tr ++ [Event.log ("ERROR: " ++ e)])
              | (tr, none) => (_createTenant w s result).prepend (t4 ++ tr)
      | .ok none => (_createTenant w s result).prepend t2

/-- The local function `suExit` of `createSuperUser`. -/
def suExit (w : World) (s : RunState) (error : Err) : StepResult :=
  let r := exitInstall w s (some 1)
    (some "Failed to create admin user account. Please check the console output.")
  .halt r.2 ([Event.logError error] ++ r.1)

/-- The task `createSuperUser`. -/
def createSuperUser (w : World) (s : RunState) : StepResult :=
  let t0 := [Event.log ("Creating the super user account. This account can be used to manage everything on your "
      ++ w.productName ++ " instance."),
    Event.prompt ["email", "password", "retypePassword"]]
  match w.credentialPrompt with
  | .error e => (suExit w s e).prepend t0
  | .ok result =>
    let t1 := t0 ++ [Event.deleteUser result.email]
    match w.deleteUser result.email with
    | some e => (suExit w s e).prepend t1
    | none =>
      let t2 := t1 ++ [Event.registerUser result.email result.password result.retypePassword
        (s.masterTenant.map (fun t => t._id))]
      match w.internalRegisterUser with
      | .error e => (suExit w s e).prepend t2
      | .ok user =>
        let s1 := { s with superUser := some user }
        let t3 := t2 ++ [Event.grantSuperPermissions user._id]
        match w.grantSuperPermissions user._id with
        | some e => (suExit w s1 e).prepend t3
        | none => .next s1 t3

/-- The task `buildFrontend`: it prints one line and calls back. -/
def buildFrontend (w : World) (s : RunState) : StepResult :=
  .next s [Event.log ("Compiling the " ++ w.productName ++ " web application, please wait a moment ... ")]

/-! ## async.series and start -/

/-- A task of the series. -/
abbrev Task := World → RunState → StepResult

/-- The control flow of `async.series`: run the tasks in order, stop at the first that
does not call back plainly. -/
def series (w : World) : List Task → RunState → StepResult
  | [], s => .next s []
  | task :: rest, s =>
    match task w s with
    | .next s1 tr => (series w rest s1).prepend tr
    | .fail e s1 tr => .fail e s1 tr
    | .halt o tr => .halt o tr

/-- The final callback handed to `async.series` in `start`. -/
def seriesDone (w : World) : StepResult → Run
  | .next s tr =>
    let r := exitInstall w s (some 0)
      (some "Installation completed successfully, the application can now be started with node server.")
    { trace := tr ++ r.1, outcome := r.2 }
  | .fail e s tr =>
    let r := exitInstall w s (some 1)
      (some "Install was unsuccessful. Please check the console output.")
    { trace := tr ++ [Event.logError e] ++ r.1, outcome := r.2 }
  | .halt o tr => { trace := tr, outcome := o }

/-- The five tasks in the order `start` lists them. -/
def installTasks : List Task :=
  [configureEnvironment, installFramework, createTenant, createSuperUser, buildFrontend]

/-- The tasks that follow `installFramework`. -/
def provisioningTasks : List Task :=
  [createTenant, createSuperUser, buildFrontend]

/-- The function `start`, run from the state the module-level variables are declared with. -/
def start (w : World) : Run :=
  let t0 := [Event.log (if w.IS_INTERACTIVE = false
      then "This script will install the application. Please wait ..."
      else "This script will install the application. \nWould you like to continue?"),
    Event.prompt ["install"]]
  match w.installPrompt with
  | .error _ =>
    { trace := t0, outcome := Outcome.uncaught "TypeError: Cannot read property \x27install\x27 of undefined" }
  | .ok answer =>
    if matchesYesAtEnd answer.toList = false then
      let r := exitInstall w initialState none none
      { trace := t0 ++ r.1, outcome := r.2 }
    else
      let r := seriesDone w (series w installTasks initialState)
      { trace := t0 ++ r.trace, outcome := r.outcome }

/-! ## Sample worlds -/

/-- An interactive world in which every collaborator succeeds, no tenant exists yet
and no mail service is chosen. -/
def calmWorld : World :=
  { IS_INTERACTIVE := true
    cwd := "/srv/adapt"
    productName := "Adapt"
    installPrompt := .ok "Y"
    getLatestFrameworkVersion := .ok "v2.2.5"
    configPrompt := fun rev =>
      .ok [("serverPort", Val.num 5000), ("dbName", Val.str "adapt-tenant-master"),
           ("smtpService", Val.str ""),
           ("frameworkRepository", Val.str "https://github.com/adaptlearning/adapt_framework.git"),
           ("frameworkRevision", Val.str rev)]
    envBytes := fun _ => 120
    jsonBytes := fun _ => 160
    installFrameworkError := none
    serverStarted := true
    tenantPrompt := .ok { name := "master", displayName := "Master" }
    retrieveTenant := fun _ => .ok none
    appConfig := [("dbName", Val.str "adapt-tenant-master"), ("dbHost", Val.str "localhost"),
                  ("dbPort", Val.num 27017)]
    createTenantResult := .ok { name := "master", _id := "t1" }
    confirmPrompt := .ok "Y"
    appDb := true
    getModelNames := ["course", "tenant", "user"]
    dbDestroy := fun _ _ => none
    credentialPrompt := .ok { email := "admin@example.org", password := "pw", retypePassword := "pw" }
    deleteUser := fun _ => none
    internalRegisterUser := .ok { _id := "u1" }
    grantSuperPermissions := fun _ => none }

/-- The calm world, except that deleting the tenant record by id reports an error. -/
def tenantDeleteFails : World :=
  { calmWorld with
    dbDestroy := fun model queryId =>
      if model = "tenant" ∧ queryId = some "t1" then some "tenant delete failed" else none }

/-- The calm world, except that the permission grant reports an error. -/
def grantFails : World :=
  { calmWorld with grantSuperPermissions := fun _ => some "grant failed" }

/-- A state in which both records of this run are held. -/
def bothCreated : RunState :=
  { masterTenant := some { name := "master", _id := "t1" }
    superUser := some { _id := "u1" }
    configResults := none }

/-- A state in which only the tenant of this run is held. -/
def tenantCreated : RunState :=
  { masterTenant := some { name := "master", _id := "t1" }
    superUser := none
    configResults := none }

/-- The record of the two-setting scenario. -/
def twoSettings : Obj :=
  [("serverPort", Val.num 5000), ("dbName", Val.str "adapt-tenant-master")]

/-- A record with an empty mail service that already carries the relay flag. -/
def presetRelay : Obj :=
  [("smtpService", Val.str ""), ("useSmtp", Val.bool true)]

/-- The calm world run unattended, with a tenant of the asked name already stored. -/
def unattendedConflict : World :=
  { calmWorld with
    IS_INTERACTIVE := false
    retrieveTenant := fun name => .ok (some { name := name, _id := "t0" }) }

/-- The calm world with a tenant of the asked name already stored. -/
def existingTenant : World :=
  { calmWorld with
    retrieveTenant := fun name => .ok (some { name := name, _id := "t0" }) }

/-- The world `existingTenant`, except that destroying the first model kind reports an error. -/
def purgeFails : World :=
  { existingTenant with
    dbDestroy := fun model _ => if model = "course" then some "destroy failed" else none }

/-- The calm world, except that the `.env` write of the second save reports zero bytes. -/
def resaveFails : World :=
  { calmWorld with
    envBytes := fun site => if site = SaveSite.fromCreateTenant then 0 else 120 }

/-- The calm world run unattended, with a credential prompt that reports an error. -/
def credentialsMissing : World :=
  { calmWorld with
    IS_INTERACTIVE := false
    credentialPrompt := .error "email is required" }

/-- Whether an event is a call that deletes or registers a user account: the user
manager deletion, the registration, or a storage-layer destroy of the `user` model
(with or without a query). -/
def Event.isUserCall : Event → Bool
  | .deleteUser _ => true
  | .registerUser _ _ _ _ => true
  | .dbDestroy model _ => decide (model = "user")
  | _ => false

/-- Whether a trace holds no call that deletes or registers a user account. -/
def noUserCall (tr : List Event) : Bool :=
  tr.all (fun ev => !ev.isUserCall)

/-- The events of `createTenant` up to and including the tenant lookup. -/
def lookupEvents (w : World) (result : TenantAnswers) : List Event :=
  [Event.log (if w.IS_INTERACTIVE = false then "Creating master tenant"
      else "Now we need to create the master tenant. \nJust press ENTER to accept the default value (in brackets)."),
   Event.loggerClear, Event.appRun, Event.prompt ["name", "displayName"],
   Event.retrieveTenant result.name]

/-- The events of `_createTenant` when the tenant is created and both writes of the
second save report bytes. -/
def creationEvents (w : World) (result : TenantAnswers) (tenant : Tenant) : List Event :=
  [Event.log ("Creating file system for master tenant (" ++ result.name ++ ")"),
   Event.createTenant result.name result.displayName (databaseDescriptor w),
   Event.log ("Master tenant (" ++ tenant.name ++ ") was created."),
   Event.log "Now saving configuration",
   Event.writeEnv (envContent (configWithTenant w tenant)),
   Event.writeJson (structuredConfig w.cwd (configWithTenant w tenant))]

/-- The events of `createTenant` from its start to the enumeration of the model kinds. -/
def purgeEvents (w : World) (result : TenantAnswers) : List Event :=
  lookupEvents w result ++
    [Event.log "Tenant already exists. It must be deleted for install to continue.",
     Event.prompt ["confirm"], Event.getModelNames]

/-- The record before the conditional relay flag is considered. -/
def injectedConfig (cwd : String) (configItems : Obj) : Obj :=
  deleteKey (assignKey (assignKey (assignKey (assignKey configItems
    "outputPlugin" (Val.str "adapt")) "dbType" (Val.str "mongoose"))
    "auth" (Val.str "local")) "root" (Val.str cwd)) "frameworkRevision"

/-! ## Objects: reading after writing -/

theorem lookupKey_assignKey_same (o : Obj) (key : String) (v : Val) :
    lookupKey (assignKey o key v) key = some v := by
  induction o with
  | nil => simp [assignKey, lookupKey]
  | cons p rest ih =>
    obtain ⟨k, x⟩ := p
    by_cases h : k = key
    · simp [assignKey, lookupKey, h]
    · simp [assignKey, lookupKey, h, ih]

theorem lookupKey_assignKey_other (o : Obj) (key other : String) (v : Val)
    (h : other ≠ key) : lookupKey (assignKey o key v) other = lookupKey o other := by
  induction o with
  | nil => simp [assignKey, lookupKey, Ne.symm h]
  | cons p rest ih =>
    obtain ⟨k, x⟩ := p
    by_cases hk : k = key
    · subst hk
      simp [assignKey, lookupKey, Ne.symm h]
    · by_cases ho : k = other
      · subst ho
        simp [assignKey, lookupKey, hk]
      · simp [assignKey, lookupKey, hk, ho, ih]

theorem lookupKey_deleteKey_same (o : Obj) (key : String) :
    lookupKey (deleteKey o key) key = none := by
  induction o with
  | nil => simp [deleteKey, lookupKey]
  | cons p rest ih =>
    obtain ⟨k, x⟩ := p
    by_cases h : k = key
    · simp [deleteKey, h, ih]
    · simp [deleteKey, h, lookupKey, ih]

theorem lookupKey_deleteKey_other (o : Obj) (key other : String) (h : other ≠ key) :
    lookupKey (deleteKey o key) other = lookupKey o other := by
  induction o with
  | nil => simp [deleteKey, lookupKey]
  | cons p rest ih =>
    obtain ⟨k, x⟩ := p
    by_cases hk : k = key
    · subst hk
      simp [deleteKey, lookupKey, Ne.symm h, ih]
    · by_cases ho : k = other
      · subst ho
        simp [deleteKey, hk, lookupKey]
      · simp [deleteKey, hk, lookupKey, ho, ih]

theorem structuredConfig_eq (cwd : String) (c : Obj) :
    structuredConfig cwd c =
      if getProp (injectedConfig cwd c) "smtpService" ≠ Val.str "" then
        assignKey (injectedConfig cwd c) "useSmtp" (Val.bool true)
      else injectedConfig cwd c := rfl

theorem lookupKey_injectedConfig_other (cwd : String) (c : Obj) (k : String)
    (h1 : k ≠ "outputPlugin") (h2 : k ≠ "dbType") (h3 : k ≠ "auth") (h4 : k ≠ "root")
    (h5 : k ≠ "frameworkRevision") :
    lookupKey (injectedConfig cwd c) k = lookupKey c k := by
  unfold injectedConfig
  rw [lookupKey_deleteKey_other _ _ _ h5, lookupKey_assignKey_other _ _ _ _ h4,
    lookupKey_assignKey_other _ _ _ _ h3, lookupKey_assignKey_other _ _ _ _ h2,
    lookupKey_assignKey_other _ _ _ _ h1]

theorem lookupKey_structuredConfig_other (cwd : String) (c : Obj) (k : String)
    (h : k ≠ "useSmtp") :
    lookupKey (structuredConfig cwd c) k = lookupKey (injectedConfig cwd c) k := by
  rw [structuredConfig_eq]
  split
  · exact lookupKey_assignKey_other _ _ _ _ h
  · rfl

/-- The only structured record `saveConfig` writes is `structuredConfig`. -/
theorem saveConfig_writeJson_eq (w : World) (site : SaveSite) (c r : Obj)
    (hw : Event.writeJson r ∈ (saveConfig w site c).1) :
    r = structuredConfig w.cwd c := by
  unfold saveConfig at hw
  by_cases he : w.envBytes site = 0
  · simp [he] at hw
  · by_cases hj : w.jsonBytes site = 0
    · simpa [he, hj] using hw
    · simpa [he, hj] using hw

/-- When the `.env` write reports bytes, the structured record is written. -/
theorem saveConfig_writes_structured (w : World) (site : SaveSite) (c : Obj)
    (he : w.envBytes site ≠ 0) :
    Event.writeJson (structuredConfig w.cwd c) ∈ (saveConfig w site c).1 := by
  unfold saveConfig
  by_cases hj : w.jsonBytes site = 0 <;> simp [he, hj]

theorem getProp_injectedConfig_smtpService (cwd : String) (c : Obj) :
    getProp (injectedConfig cwd c) "smtpService" = getProp c "smtpService" := by
  unfold getProp
  rw [lookupKey_injectedConfig_other cwd c "smtpService" (by decide) (by decide) (by decide)
    (by decide) (by decide)]

theorem lookupKey_structuredConfig_useSmtp (cwd : String) (c : Obj) :
    lookupKey (structuredConfig cwd c) "useSmtp" =
      if getProp c "smtpService" ≠ Val.str "" then some (Val.bool true)
      else lookupKey c "useSmtp" := by
  rw [structuredConfig_eq, getProp_injectedConfig_smtpService]
  split
  · exact lookupKey_assignKey_same _ _ _
  · exact lookupKey_injectedConfig_other cwd c "useSmtp" (by decide) (by decide) (by decide)
      (by decide) (by decide)

/-! ## saveConfig: the structured record -/

/-- C6, as amended: in the structured record `saveConfig` writes, `useSmtp` is true
exactly when the `smtpService` of the record passed in is anything but the empty
string (a missing one included) or the record already holds `useSmtp = true`; with an
empty `smtpService` the flag keeps the value the record had. -/
theorem saveConfig_relay_flag (w : World) (site : SaveSite) (c r : Obj)
    (hw : Event.writeJson r ∈ (saveConfig w site c).1) :
    (lookupKey r "useSmtp" = some (Val.bool true) ↔
      (getProp c "smtpService" ≠ Val.str "" ∨ lookupKey c "useSmtp" = some (Val.bool true))) ∧
    (getProp c "smtpService" = Val.str "" → lookupKey r "useSmtp" = lookupKey c "useSmtp") := by
  rw [saveConfig_writeJson_eq w site c r hw, lookupKey_structuredConfig_useSmtp]
  by_cases h : getProp c "smtpService" = Val.str ""
  · simp [h]
  · simp [h]

theorem saveConfig_relay_flag_witness :
    Event.writeJson
        [("smtpService", Val.str "gmail"), ("outputPlugin", Val.str "adapt"),
         ("dbType", Val.str "mongoose"), ("auth", Val.str "local"),
         ("root", Val.str "/srv/adapt"), ("useSmtp", Val.bool true)]
      ∈ (saveConfig calmWorld SaveSite.fromConfigureEnvironment
          [("smtpService", Val.str "gmail"), ("frameworkRevision", Val.str "tags/v2.2.5")]).1 ∧
    lookupKey
        [("smtpService", Val.str "gmail"), ("outputPlugin", Val.str "adapt"),
         ("dbType", Val.str "mongoose"), ("auth", Val.str "local"),
         ("root", Val.str "/srv/adapt"), ("useSmtp", Val.bool true)] "useSmtp"
      = some (Val.bool true) :=
  ⟨by decide,
   ((saveConfig_relay_flag calmWorld SaveSite.fromConfigureEnvironment
      [("smtpService", Val.str "gmail"), ("frameworkRevision", Val.str "tags/v2.2.5")]
      _ (by decide)).1).2 (Or.inl (by decide))⟩

/-- C6, counterexample: a record whose `smtpService` is the empty string and which
already holds `useSmtp = true` is written with `useSmtp = true`. -/
theorem relay_flag_preset_counterexample :
    lookupKey presetRelay "smtpService" = some (Val.str "") ∧
    Event.writeJson
        [("smtpService", Val.str ""), ("useSmtp", Val.bool true),
         ("outputPlugin", Val.str "adapt"), ("dbType", Val.str "mongoose"),
         ("auth", Val.str "local"), ("root", Val.str "/srv/adapt")]
      ∈ (saveConfig calmWorld SaveSite.fromCreateTenant presetRelay).1 ∧
    ¬ (∀ r, Event.writeJson r ∈ (saveConfig calmWorld SaveSite.fromCreateTenant presetRelay).1 →
        (lookupKey r "useSmtp" = some (Val.bool true) ↔
          lookupKey presetRelay "smtpService" ≠ some (Val.str ""))) := by
  refine ⟨by decide, by decide, ?_⟩
  intro h
  have h1 := h _ (show Event.writeJson
        [("smtpService", Val.str ""), ("useSmtp", Val.bool true),
         ("outputPlugin", Val.str "adapt"), ("dbType", Val.str "mongoose"),
         ("auth", Val.str "local"), ("root", Val.str "/srv/adapt")]
      ∈ (saveConfig calmWorld SaveSite.fromCreateTenant presetRelay).1 by decide)
  exact absurd (h1.1 (by decide)) (by decide)

/-- C7: every structured record `saveConfig` writes for a record `c` has
`outputPlugin = "adapt"`, `dbType = "mongoose"`, `auth = "local"`, `root` equal to the
working directory, no `frameworkRevision` key, and for every other key except
`useSmtp` the value (or absence) it has in `c`; for the two-setting record it holds
`serverPort = 5000` and `dbName = "adapt-tenant-master"` next to the fixed identifiers. -/
theorem saveConfig_structured_record (w : World) (site : SaveSite) (c r : Obj)
    (hw : Event.writeJson r ∈ (saveConfig w site c).1) :
    lookupKey r "outputPlugin" = some (Val.str "adapt") ∧
    lookupKey r "dbType" = some (Val.str "mongoose") ∧
    lookupKey r "auth" = some (Val.str "local") ∧
    lookupKey r "root" = some (Val.str w.cwd) ∧
    lookupKey r "frameworkRevision" = none ∧
    (∀ k, k ∉ ["outputPlugin", "dbType", "auth", "root", "frameworkRevision", "useSmtp"] →
      lookupKey r k = lookupKey c k) ∧
    (c = twoSettings →
      lookupKey r "serverPort" = some (Val.num 5000) ∧
      lookupKey r "dbName" = some (Val.str "adapt-tenant-master")) := by
  have hall : ∀ k, k ∉ ["outputPlugin", "dbType", "auth", "root", "frameworkRevision", "useSmtp"] →
      lookupKey r k = lookupKey c k := by
    intro k hk
    simp only [List.mem_cons, List.mem_singleton, List.not_mem_nil, or_false, not_or] at hk
    obtain ⟨h1, h2, h3, h4, h5, h6⟩ := hk
    rw [saveConfig_writeJson_eq w site c r hw, lookupKey_structuredConfig_other _ _ _ h6,
      lookupKey_injectedConfig_other _ _ _ h1 h2 h3 h4 h5]
  refine ⟨?_, ?_, ?_, ?_, ?_, hall, ?_⟩
  · rw [saveConfig_writeJson_eq w site c r hw,
      lookupKey_structuredConfig_other _ _ _ (by decide)]
    unfold injectedConfig
    rw [lookupKey_deleteKey_other _ _ _ (by decide), lookupKey_assignKey_other _ _ _ _ (by decide),
      lookupKey_assignKey_other _ _ _ _ (by decide), lookupKey_assignKey_other _ _ _ _ (by decide),
      lookupKey_assignKey_same]
  · rw [saveConfig_writeJson_eq w site c r hw,
      lookupKey_structuredConfig_other _ _ _ (by decide)]
    unfold injectedConfig
    rw [lookupKey_deleteKey_other _ _ _ (by decide), lookupKey_assignKey_other _ _ _ _ (by decide),
      lookupKey_assignKey_other _ _ _ _ (by decide), lookupKey_assignKey_same]
  · rw [saveConfig_writeJson_eq w site c r hw,
      lookupKey_structuredConfig_other _ _ _ (by decide)]
    unfold injectedConfig
    rw [lookupKey_deleteKey_other _ _ _ (by decide), lookupKey_assignKey_other _ _ _ _ (by decide),
      lookupKey_assignKey_same]
  · rw [saveConfig_writeJson_eq w site c r hw,
      lookupKey_structuredConfig_other _ _ _ (by decide)]
    unfold injectedConfig
    rw [lookupKey_deleteKey_other _ _ _ (by decide), lookupKey_assignKey_same]
  · rw [saveConfig_writeJson_eq w site c r hw,
      lookupKey_structuredConfig_other _ _ _ (by decide)]
    unfold injectedConfig
    rw [lookupKey_deleteKey_same]
  · intro hc
    subst hc
    exact ⟨by rw [hall "serverPort" (by decide)]; rfl, by rw [hall "dbName" (by decide)]; rfl⟩

theorem saveConfig_structured_record_witness :
    Event.writeJson
        [("serverPort", Val.num 5000), ("dbName", Val.str "adapt-tenant-master"),
         ("outputPlugin", Val.str "adapt"), ("dbType", Val.str "mongoose"),
         ("auth", Val.str "local"), ("root", Val.str "/srv/adapt"), ("useSmtp", Val.bool true)]
      ∈ (saveConfig calmWorld SaveSite.fromConfigureEnvironment twoSettings).1 ∧
    lookupKey
        [("serverPort", Val.num 5000), ("dbName", Val.str "adapt-tenant-master"),
         ("outputPlugin", Val.str "adapt"), ("dbType", Val.str "mongoose"),
         ("auth", Val.str "local"), ("root", Val.str "/srv/adapt"), ("useSmtp", Val.bool true)]
        "auth" = some (Val.str "local") :=
  ⟨by decide,
   (saveConfig_structured_record calmWorld SaveSite.fromConfigureEnvironment twoSettings
      _ (by decide)).2.2.1⟩

/-! ## exitInstall: rollback -/

/-- With no tenant held, `exitInstall` prints the message and exits: nothing is deleted. -/
theorem exitInstall_no_tenant (w : World) (s : RunState) (code : Nat) (msg : String)
    (hs : s.masterTenant = none) (hm : msg ≠ "") :
    exitInstall w s (some code) (some msg) =
      ([Event.log ("\n" ++ msg ++ "\n")], Outcome.exit code) := by
  simp [exitInstall, hs, hm]

/-- With a tenant held and no user, a non-zero exit deletes the tenant by id. -/
theorem exitInstall_tenant_only (w : World) (s : RunState) (t : Tenant) (code : Nat)
    (msg : String) (ht : s.masterTenant = some t) (hu : s.superUser = none)
    (hdb : w.appDb = true) (hc : code ≠ 0) (hm : msg ≠ "") :
    exitInstall w s (some code) (some msg) =
      ([Event.log ("\n" ++ msg ++ "\n"), Event.dbDestroy "tenant" (some t._id)],
        Outcome.exit code) := by
  simp [exitInstall, ht, hu, hdb, hc, hm]

/-- With a tenant and a user held, a non-zero exit deletes both by id. -/
theorem exitInstall_both (w : World) (s : RunState) (t : Tenant) (u : User) (code : Nat)
    (msg : String) (ht : s.masterTenant = some t) (hu : s.superUser = some u)
    (hdb : w.appDb = true) (hc : code ≠ 0) (hm : msg ≠ "") :
    exitInstall w s (some code) (some msg) =
      ([Event.log ("\n" ++ msg ++ "\n"), Event.dbDestroy "tenant" (some t._id),
        Event.dbDestroy "user" (some u._id)], Outcome.exit code) := by
  simp [exitInstall, ht, hu, hdb, hc, hm]

/-- C10, as amended: in `exitInstall` with a non-zero code, when a tenant and a user
were created in this run and the storage handle is present, the user deletion is
issued right after the tenant deletion even when the tenant deletion reports an
error, and the process then exits with that code. -/
theorem exitInstall_user_deleted_after_failed_tenant_delete (w : World) (s : RunState)
    (t : Tenant) (u : User) (code : Nat) (msg : String) (e : Err)
    (ht : s.masterTenant = some t) (hu : s.superUser = some u)
    (hdb : w.appDb = true) (hc : code ≠ 0) (hm : msg ≠ "")
    (_herr : w.dbDestroy "tenant" (some t._id) = some e) :
    exitInstall w s (some code) (some msg) =
      ([Event.log ("\n" ++ msg ++ "\n"), Event.dbDestroy "tenant" (some t._id),
        Event.dbDestroy "user" (some u._id)], Outcome.exit code) :=
  exitInstall_both w s t u code msg ht hu hdb hc hm

theorem exitInstall_user_deleted_after_failed_tenant_delete_witness :
    tenantDeleteFails.dbDestroy "tenant" (some "t1") = some "tenant delete failed" ∧
    exitInstall tenantDeleteFails bothCreated (some 1)
        (some "Install was unsuccessful. Please check the console output.") =
      ([Event.log ("\n" ++ "Install was unsuccessful. Please check the console output." ++ "\n"),
        Event.dbDestroy "tenant" (some "t1"), Event.dbDestroy "user" (some "u1")],
        Outcome.exit 1) :=
  ⟨by decide,
   exitInstall_user_deleted_after_failed_tenant_delete tenantDeleteFails bothCreated
     { name := "master", _id := "t1" } { _id := "u1" } 1 _ "tenant delete failed"
     rfl rfl rfl (by decide) (by decide) (by decide)⟩

/-- C10, counterexample: the tenant deletion reports an error, and the deletion of
the user is issued all the same before the process exits with status 1. -/
theorem exitInstall_rollback_counterexample :
    tenantDeleteFails.dbDestroy "tenant" (some "t1") = some "tenant delete failed" ∧
    exitInstall tenantDeleteFails bothCreated (some 1)
        (some "Install was unsuccessful. Please check the console output.") =
      ([Event.log "\nInstall was unsuccessful. Please check the console output.\n",
        Event.dbDestroy "tenant" (some "t1"), Event.dbDestroy "user" (some "u1")],
        Outcome.exit 1) ∧
    Event.dbDestroy "user" (some "u1") ∈
      (exitInstall tenantDeleteFails bothCreated (some 1)
        (some "Install was unsuccessful. Please check the console output.")).1 := by
  refine ⟨by decide, by decide, by decide⟩

/-! ## createSuperUser -/

/-- C4: when a tenant was created in this run, the credentials are collected, the stale
user is deleted, registration succeeds and the permission grant reports an error,
`createSuperUser` ends the process with status 1, and the last two calls before the
exit are the deletion of that tenant by its id and the deletion of the registered
user by its id. -/
theorem createSuperUser_grant_failure_rolls_back (w : World) (s : RunState) (t : Tenant)
    (cred : Credentials) (u : User) (e : Err)
    (ht : s.masterTenant = some t) (hdb : w.appDb = true)
    (hcred : w.credentialPrompt = .ok cred) (hdel : w.deleteUser cred.email = none)
    (hreg : w.internalRegisterUser = .ok u)
    (hgrant : w.grantSuperPermissions u._id = some e) :
    createSuperUser w s = .halt (Outcome.exit 1)
      [Event.log ("Creating the super user account. This account can be used to manage everything on your "
          ++ w.productName ++ " instance."),
       Event.prompt ["email", "password", "retypePassword"],
       Event.deleteUser cred.email,
       Event.registerUser cred.email cred.password cred.retypePassword (some t._id),
       Event.grantSuperPermissions u._id,
       Event.logError e,
       Event.log "\nFailed to create admin user account. Please check the console output.\n",
       Event.dbDestroy "tenant" (some t._id),
       Event.dbDestroy "user" (some u._id)] := by
  simp [createSuperUser, hcred, hdel, hreg, hgrant, suExit, exitInstall, ht, hdb,
    StepResult.prepend]

theorem createSuperUser_grant_failure_rolls_back_witness :
    createSuperUser grantFails tenantCreated = .halt (Outcome.exit 1)
      [Event.log "Creating the super user account. This account can be used to manage everything on your Adapt instance.",
       Event.prompt ["email", "password", "retypePassword"],
       Event.deleteUser "admin@example.org",
       Event.registerUser "admin@example.org" "pw" "pw" (some "t1"),
       Event.grantSuperPermissions "u1",
       Event.logError "grant failed",
       Event.log "\nFailed to create admin user account. Please check the console output.\n",
       Event.dbDestroy "tenant" (some "t1"),
       Event.dbDestroy "user" (some "u1")] :=
  createSuperUser_grant_failure_rolls_back grantFails tenantCreated
    { name := "master", _id := "t1" }
    { email := "admin@example.org", password := "pw", retypePassword := "pw" }
    { _id := "u1" } "grant failed" rfl rfl rfl rfl rfl rfl

/-! ## createTenant -/

theorem append_ne_empty (a b : String) (h : a ≠ "") : a ++ b ≠ "" := by
  intro heq
  apply h
  have h1 := congrArg String.data heq
  simp only [String.data_append] at h1
  exact String.ext (List.append_eq_nil.mp h1).1

theorem trace_prepend (pre : List Event) (r : StepResult) :
    (r.prepend pre).trace = pre ++ r.trace := by
  cases r <;> rfl

/-- C3: in an unattended run whose tenant lookup returns an existing tenant (and in
which no tenant has been created so far), `createTenant` ends the process with status 1;
after the lookup the only event is the printed message naming the tenant, so no
tenant or user is created, no model kind is destroyed and no rollback deletion is issued. -/
theorem createTenant_unattended_conflict (w : World) (s : RunState) (result : TenantAnswers)
    (tenant : Tenant)
    (hmode : w.IS_INTERACTIVE = false) (hstart : w.serverStarted = true)
    (hprompt : w.tenantPrompt = .ok result)
    (hfound : w.retrieveTenant result.name = .ok (some tenant))
    (hfresh : s.masterTenant = none) :
    createTenant w s = .halt (Outcome.exit 1)
      [Event.log "Creating master tenant", Event.loggerClear, Event.appRun,
       Event.prompt ["name", "displayName"], Event.retrieveTenant result.name,
       Event.log ("\n" ++ ("Tenant \x27" ++ tenant.name
          ++ "\x27 already exists, automatic install cannot continue.") ++ "\n")] := by
  have hm : ("Tenant \x27" ++ tenant.name
      ++ "\x27 already exists, automatic install cannot continue.") ≠ "" :=
    append_ne_empty _ _ (append_ne_empty _ _ (by decide))
  simp [createTenant, hmode, hstart, hprompt, hfound, exitInstall, hfresh, hm]

theorem createTenant_unattended_conflict_witness :
    createTenant unattendedConflict initialState = .halt (Outcome.exit 1)
      [Event.log "Creating master tenant", Event.loggerClear, Event.appRun,
       Event.prompt ["name", "displayName"], Event.retrieveTenant "master",
       Event.log ("\n" ++ ("Tenant \x27" ++ "master"
          ++ "\x27 already exists, automatic install cannot continue.") ++ "\n")] :=
  createTenant_unattended_conflict unattendedConflict initialState
    { name := "master", displayName := "Master" } { name := "master", _id := "t0" }
    rfl rfl rfl rfl rfl

theorem destroyEachSeries_all_ok (w : World) (ms : List String)
    (h : ∀ m ∈ ms, w.dbDestroy m none = none) :
    destroyEachSeries w ms = (ms.map (fun m => Event.dbDestroy m none), none) := by
  induction ms with
  | nil => rfl
  | cons m rest ih =>
    have hm : w.dbDestroy m none = none := h m (List.mem_cons_self _ _)
    have hr := ih (fun x hx => h x (List.mem_cons_of_mem _ hx))
    simp [destroyEachSeries, hm, hr]

theorem destroyEachSeries_stops (w : World) (done : List String) (bad : String)
    (rest : List String) (e : Err)
    (hd : ∀ m ∈ done, w.dbDestroy m none = none) (hb : w.dbDestroy bad none = some e) :
    destroyEachSeries w (done ++ bad :: rest) =
      ((done ++ [bad]).map (fun m => Event.dbDestroy m none), some e) := by
  induction done with
  | nil => simp [destroyEachSeries, hb]
  | cons m ms ih =>
    have hm : w.dbDestroy m none = none := hd m (List.mem_cons_self _ _)
    have hr := ih (fun x hx => hd x (List.mem_cons_of_mem _ hx))
    simp [destroyEachSeries, hm, hr]

theorem createTenantInner_trace_head (w : World) (s : RunState) (result : TenantAnswers) :
    ∃ post, (_createTenant w s result).trace =
      Event.log ("Creating file system for master tenant (" ++ result.name ++ ")") ::
      Event.createTenant result.name result.displayName (databaseDescriptor w) :: post := by
  unfold _createTenant
  cases hc : w.createTenantResult with
  | error e =>
    refine ⟨(tenantExit w s e).trace, ?_⟩
    simp [trace_prepend]
  | ok tenant =>
    simp only
    split
    · exact ⟨_, rfl⟩
    · exact ⟨_, rfl⟩

/-- C5, as amended: in an interactive run whose tenant lookup finds a tenant and whose
operator confirms, the model names are read from the storage layer at that moment and
destroyed in that order up to and including the first whose destroy reports an error.
When every destroy succeeds, all of them precede the tenant-creation call; when one
reports an error, the task calls back with it, the names after it are not destroyed
and no tenant-creation call is made. -/
theorem createTenant_purges_then_creates (w : World) (s : RunState) (result : TenantAnswers)
    (existing : Tenant) (confirm : String)
    (hmode : w.IS_INTERACTIVE = true) (hstart : w.serverStarted = true)
    (hprompt : w.tenantPrompt = .ok result)
    (hfound : w.retrieveTenant result.name = .ok (some existing))
    (hconfirm : w.confirmPrompt = .ok confirm) (hyes : matchesYes confirm.toList = true)
    (hdb : w.appDb = true) :
    ((∀ m ∈ w.getModelNames, w.dbDestroy m none = none) →
      ∃ post, (createTenant w s).trace =
        purgeEvents w result ++ w.getModelNames.map (fun m => Event.dbDestroy m none) ++
          (Event.log ("Creating file system for master tenant (" ++ result.name ++ ")") ::
           Event.createTenant result.name result.displayName (databaseDescriptor w) :: post)) ∧
    (∀ done bad rest e, w.getModelNames = done ++ bad :: rest →
      (∀ m ∈ done, w.dbDestroy m none = none) → w.dbDestroy bad none = some e →
      createTenant w s = .fail e s
        (purgeEvents w result ++ (done ++ [bad]).map (fun m => Event.dbDestroy m none) ++
          [Event.log ("ERROR: " ++ e)]) ∧
      ∀ n d db, Event.createTenant n d db ∉ (createTenant w s).trace) := by
  have hyes1 : matchesYes confirm.data = true := hyes
  constructor
  · intro hall
    obtain ⟨post, hpost⟩ := createTenantInner_trace_head w s result
    refine ⟨post, ?_⟩
    have hrun : createTenant w s = (_createTenant w s result).prepend
        (purgeEvents w result ++ w.getModelNames.map (fun m => Event.dbDestroy m none)) := by
      simp [createTenant, hmode, hstart, hprompt, hfound, hconfirm, hyes1, hdb,
        destroyEachSeries_all_ok w _ hall, purgeEvents, lookupEvents]
    rw [hrun, trace_prepend, hpost]
  · intro done bad rest e hnames hdone hbad
    have hrun : createTenant w s = .fail e s
        (purgeEvents w result ++ (done ++ [bad]).map (fun m => Event.dbDestroy m none) ++
          [Event.log ("ERROR: " ++ e)]) := by
      simp [createTenant, hmode, hstart, hprompt, hfound, hconfirm, hyes1, hdb, hnames,
        destroyEachSeries_stops w done bad rest e hdone hbad, purgeEvents, lookupEvents]
    refine ⟨hrun, ?_⟩
    intro n d db hmem
    rw [hrun] at hmem
    simp [StepResult.trace, purgeEvents, lookupEvents] at hmem

theorem createTenant_purges_then_creates_witness :
    createTenant purgeFails initialState = .fail "destroy failed" initialState
      (purgeEvents purgeFails { name := "master", displayName := "Master" } ++
        ([] ++ ["course"]).map (fun m => Event.dbDestroy m none) ++
        [Event.log ("ERROR: " ++ "destroy failed")]) :=
  ((createTenant_purges_then_creates purgeFails initialState
      { name := "master", displayName := "Master" } { name := "master", _id := "t0" } "Y"
      rfl rfl rfl rfl rfl (by decide) rfl).2
    [] "course" ["tenant", "user"] "destroy failed" rfl (by simp) (by decide)).1

/-- C5, counterexample: the storage layer lists three model kinds, the destroy of the
first one reports an error, and no destroy is issued for the other two. -/
theorem createTenant_purge_counterexample :
    purgeFails.IS_INTERACTIVE = true ∧
    purgeFails.getModelNames = ["course", "tenant", "user"] ∧
    matchesYes "Y".toList = true ∧
    Event.dbDestroy "course" none ∈ (createTenant purgeFails initialState).trace ∧
    Event.dbDestroy "tenant" none ∉ (createTenant purgeFails initialState).trace ∧
    Event.dbDestroy "user" none ∉ (createTenant purgeFails initialState).trace := by
  refine ⟨by decide, by decide, by decide, by decide, by decide, by decide⟩

/-- C8, on the code: when configuration is saved again after the tenant has been created
and one of the two writes reports zero bytes, `saveConfig` calls `process.exit(1)`
itself instead of going through `exitInstall`: the tenant-creation call has been
made, the process ends with status 1, and no deletion of any kind is issued before
the exit, so the tenant of this run is left behind. -/
theorem createTenant_resave_zero_bytes_exits_without_rollback (w : World) (s : RunState)
    (result : TenantAnswers) (tenant : Tenant)
    (hcreate : w.createTenantResult = .ok tenant)
    (hzero : w.envBytes SaveSite.fromCreateTenant = 0 ∨
      w.jsonBytes SaveSite.fromCreateTenant = 0) :
    ∃ tr, _createTenant w s result = .halt (Outcome.exit 1) tr ∧
      Event.createTenant result.name result.displayName (databaseDescriptor w) ∈ tr ∧
      ∀ model queryId, Event.dbDestroy model queryId ∉ tr := by
  refine ⟨(_createTenant w s result).trace, ?_, ?_, ?_⟩
  · by_cases he : w.envBytes SaveSite.fromCreateTenant = 0
    · simp [_createTenant, hcreate, saveConfig, he, StepResult.trace]
    · have hj : w.jsonBytes SaveSite.fromCreateTenant = 0 := hzero.resolve_left he
      simp [_createTenant, hcreate, saveConfig, he, hj, StepResult.trace]
  · by_cases he : w.envBytes SaveSite.fromCreateTenant = 0
    · simp [_createTenant, hcreate, saveConfig, he, StepResult.trace]
    · have hj : w.jsonBytes SaveSite.fromCreateTenant = 0 := hzero.resolve_left he
      simp [_createTenant, hcreate, saveConfig, he, hj, StepResult.trace]
  · intro model queryId
    by_cases he : w.envBytes SaveSite.fromCreateTenant = 0
    · simp [_createTenant, hcreate, saveConfig, he, StepResult.trace]
    · have hj : w.jsonBytes SaveSite.fromCreateTenant = 0 := hzero.resolve_left he
      simp [_createTenant, hcreate, saveConfig, he, hj, StepResult.trace]

theorem createTenant_resave_zero_bytes_exits_without_rollback_witness :
    ∃ tr, _createTenant resaveFails initialState { name := "master", displayName := "Master" }
        = .halt (Outcome.exit 1) tr ∧
      Event.createTenant "master" "Master" (databaseDescriptor resaveFails) ∈ tr ∧
      ∀ model queryId, Event.dbDestroy model queryId ∉ tr :=
  createTenant_resave_zero_bytes_exits_without_rollback resaveFails initialState
    { name := "master", displayName := "Master" } { name := "master", _id := "t1" }
    rfl (Or.inl (by decide))

/-- The second save evaluated in the world `resaveFails`: the tenant `t1` is created,
the `.env` write reports zero bytes, and the process exits with status 1 with no
deletion of that tenant in the trace. -/
theorem createTenant_resave_leaves_tenant :
    resaveFails.createTenantResult = .ok { name := "master", _id := "t1" } ∧
    resaveFails.envBytes SaveSite.fromCreateTenant = 0 ∧
    resaveFails.appDb = true ∧
    createTenant resaveFails initialState =
      .halt (Outcome.exit 1) (createTenant resaveFails initialState).trace ∧
    Event.createTenant "master" "Master" (databaseDescriptor resaveFails) ∈
      (createTenant resaveFails initialState).trace ∧
    Event.dbDestroy "tenant" (some "t1") ∉ (createTenant resaveFails initialState).trace := by
  refine ⟨rfl, by decide, by decide, by decide, by decide, by decide⟩

/-! ## The run after installFramework -/

theorem prepend_eq_next (pre : List Event) (r : StepResult) (s1 : RunState)
    (tr : List Event) (h : r.prepend pre = .next s1 tr) :
    ∃ tr0, r = .next s1 tr0 ∧ tr = pre ++ tr0 := by
  cases r with
  | next s2 tr2 =>
    simp only [StepResult.prepend, StepResult.next.injEq] at h
    exact ⟨tr2, by rw [h.1], h.2.symm⟩
  | fail e s2 tr2 => simp [StepResult.prepend] at h
  | halt o tr2 => simp [StepResult.prepend] at h

theorem tenantExit_ne_next (w : World) (s : RunState) (e : Err) (s1 : RunState)
    (tr : List Event) : tenantExit w s e ≠ .next s1 tr := by
  simp [tenantExit]

theorem createTenantInner_next_inv (w : World) (s : RunState) (result : TenantAnswers)
    (s1 : RunState) (tr : List Event) (h : _createTenant w s result = .next s1 tr) :
    ∃ tenant, w.createTenantResult = .ok tenant ∧
      s1 = { s with masterTenant := some tenant } ∧
      Event.createTenant result.name result.displayName (databaseDescriptor w) ∈ tr := by
  unfold _createTenant at h
  cases hc : w.createTenantResult with
  | error e =>
    rw [hc] at h
    obtain ⟨tr0, h0, _⟩ := prepend_eq_next _ _ _ _ h
    exact absurd h0 (tenantExit_ne_next w s e s1 tr0)
  | ok tenant =>
    rw [hc] at h
    simp only at h
    split at h
    · simp at h
    · simp only [StepResult.next.injEq] at h
      refine ⟨tenant, rfl, h.1.symm, ?_⟩
      rw [← h.2]
      simp

theorem createTenant_next_inv (w : World) (s s1 : RunState) (tr : List Event)
    (h : createTenant w s = .next s1 tr) :
    ∃ (result : TenantAnswers) (tenant : Tenant), w.createTenantResult = .ok tenant ∧
      s1 = { s with masterTenant := some tenant } ∧
      Event.createTenant result.name result.displayName (databaseDescriptor w) ∈ tr := by
  cases hs : w.serverStarted with
  | false => simp [createTenant, hs] at h
  | true =>
    cases hp : w.tenantPrompt with
    | error e => simp [createTenant, hs, hp, tenantExit, StepResult.prepend] at h
    | ok result =>
      cases hr : w.retrieveTenant result.name with
      | error e => simp [createTenant, hs, hp, hr, tenantExit, StepResult.prepend] at h
      | ok found =>
        cases found with
        | none =>
          simp only [createTenant, hs, hp, hr] at h
          obtain ⟨tr0, h0, htr⟩ := prepend_eq_next _ _ _ _ h
          obtain ⟨tenant, h1, h2, h3⟩ := createTenantInner_next_inv _ _ _ _ _ h0
          exact ⟨result, tenant, h1, h2, by rw [htr]; exact List.mem_append_right _ h3⟩
        | some existing =>
          cases hm : w.IS_INTERACTIVE with
          | false => simp [createTenant, hs, hp, hr, hm] at h
          | true =>
            cases hc : w.confirmPrompt with
            | error e => simp [createTenant, hs, hp, hr, hm, hc] at h
            | ok confirm =>
              cases hy : matchesYes confirm.data with
              | false => simp [createTenant, hs, hp, hr, hm, hc, hy] at h
              | true =>
                cases hdb : w.appDb with
                | false => simp [createTenant, hs, hp, hr, hm, hc, hy, hdb] at h
                | true =>
                  cases hd : destroyEachSeries w w.getModelNames with
                  | mk evs oe =>
                    cases oe with
                    | some e => simp [createTenant, hs, hp, hr, hm, hc, hy, hdb, hd] at h
                    | none =>
                      simp only [createTenant, hs, hp, hr, hm, hc, String.toList, hy, hdb, hd] at h
                      obtain ⟨tr0, h0, htr⟩ := prepend_eq_next _ _ _ _ h
                      obtain ⟨tenant, h1, h2, h3⟩ := createTenantInner_next_inv _ _ _ _ _ h0
                      exact ⟨result, tenant, h1, h2,
                        by rw [htr]; exact List.mem_append_right _ h3⟩

theorem noUserCall_nil : noUserCall [] = true := rfl

theorem noUserCall_cons (ev : Event) (tr : List Event) :
    noUserCall (ev :: tr) = (!ev.isUserCall && noUserCall tr) := by
  simp [noUserCall]

theorem noUserCall_append (a b : List Event) :
    noUserCall (a ++ b) = (noUserCall a && noUserCall b) := by
  simp [noUserCall, List.all_append]

theorem createTenantInner_next_trace (w : World) (s : RunState) (result : TenantAnswers)
    (s1 : RunState) (tr : List Event) (h : _createTenant w s result = .next s1 tr) :
    ∃ tenant, w.createTenantResult = .ok tenant ∧
      s1 = { s with masterTenant := some tenant } ∧
      tr = creationEvents w result tenant := by
  cases hc : w.createTenantResult with
  | error e => simp [_createTenant, hc, tenantExit, StepResult.prepend] at h
  | ok tenant =>
    by_cases he : w.envBytes SaveSite.fromCreateTenant = 0
    · simp [_createTenant, hc, saveConfig, he] at h
    · by_cases hj : w.jsonBytes SaveSite.fromCreateTenant = 0
      · simp [_createTenant, hc, saveConfig, he, hj] at h
      · simp [_createTenant, hc, saveConfig, he, hj] at h
        exact ⟨tenant, rfl, h.1.symm, by rw [← h.2]; simp [creationEvents]⟩

/-- In an unattended run `createTenant` calls back only along one path: the lookup
finds no tenant, the tenant is created and the second save succeeds. -/
theorem createTenant_next_unattended (w : World) (s s1 : RunState) (tr : List Event)
    (hmode : w.IS_INTERACTIVE = false) (h : createTenant w s = .next s1 tr) :
    ∃ (result : TenantAnswers) (tenant : Tenant),
      w.retrieveTenant result.name = .ok none ∧
      w.createTenantResult = .ok tenant ∧
      s1 = { s with masterTenant := some tenant } ∧
      tr = lookupEvents w result ++ creationEvents w result tenant := by
  cases hs : w.serverStarted with
  | false => simp [createTenant, hs] at h
  | true =>
    cases hp : w.tenantPrompt with
    | error e => simp [createTenant, hs, hp, tenantExit, StepResult.prepend] at h
    | ok result =>
      cases hr : w.retrieveTenant result.name with
      | error e => simp [createTenant, hs, hp, hr, tenantExit, StepResult.prepend] at h
      | ok found =>
        cases found with
        | some existing => simp [createTenant, hs, hp, hr, hmode] at h
        | none =>
          simp only [createTenant, hs, hp, hr] at h
          obtain ⟨tr0, h0, htr⟩ := prepend_eq_next _ _ _ _ h
          obtain ⟨tenant, h1, h2, h3⟩ := createTenantInner_next_trace _ _ _ _ _ h0
          refine ⟨result, tenant, hr, h1, h2, ?_⟩
          rw [htr, h3]
          simp [lookupEvents, hmode]

/-- C9, as amended: in an unattended run that has reached `createSuperUser` (so
`createTenant` has called back) and whose credential prompt reports an error, the
tenant-creation call has already been made; the run ends with status 1 right after
the prompt, the only call issued after it is the rollback deletion of that tenant by
its id, and no call that deletes or registers a user (user manager deletion,
registration, or a storage-layer destroy of the user model) is made at any point. -/
theorem createSuperUser_prompt_failure (w : World) (s0 s1 : RunState) (tr1 : List Event)
    (e : Err) (hmode : w.IS_INTERACTIVE = false) (huser : s0.superUser = none)
    (hreach : createTenant w s0 = .next s1 tr1)
    (hcred : w.credentialPrompt = .error e) (hdb : w.appDb = true) :
    ∃ (result : TenantAnswers) (tenant : Tenant),
      tr1 = lookupEvents w result ++ creationEvents w result tenant ∧
      Event.createTenant result.name result.displayName (databaseDescriptor w) ∈ tr1 ∧
      s1.masterTenant = some tenant ∧
      series w provisioningTasks s0 = .halt (Outcome.exit 1)
        (tr1 ++
          [Event.log ("Creating the super user account. This account can be used to manage everything on your "
              ++ w.productName ++ " instance."),
           Event.prompt ["email", "password", "retypePassword"],
           Event.logError e,
           Event.log "\nFailed to create admin user account. Please check the console output.\n",
           Event.dbDestroy "tenant" (some tenant._id)]) ∧
      noUserCall (series w provisioningTasks s0).trace = true := by
  obtain ⟨result, tenant, _, _, hs1, htr1⟩ := createTenant_next_unattended w s0 s1 tr1 hmode hreach
  have hrun : series w provisioningTasks s0 = .halt (Outcome.exit 1)
      (tr1 ++
        [Event.log ("Creating the super user account. This account can be used to manage everything on your "
            ++ w.productName ++ " instance."),
         Event.prompt ["email", "password", "retypePassword"],
         Event.logError e,
         Event.log "\nFailed to create admin user account. Please check the console output.\n",
         Event.dbDestroy "tenant" (some tenant._id)]) := by
    simp [series, provisioningTasks, hreach, createSuperUser, hcred, suExit, exitInstall, hs1,
      huser, hdb, StepResult.prepend]
  refine ⟨result, tenant, htr1, ?_, by rw [hs1], hrun, ?_⟩
  · rw [htr1]
    simp [creationEvents]
  · rw [hrun, htr1]
    simp [StepResult.trace, lookupEvents, creationEvents, noUserCall_append, noUserCall_cons,
      noUserCall_nil, Event.isUserCall]

theorem createSuperUser_prompt_failure_witness :
    ∃ (result : TenantAnswers) (tenant : Tenant),
      (createTenant credentialsMissing initialState).trace =
        lookupEvents credentialsMissing result ++
          creationEvents credentialsMissing result tenant ∧
      Event.createTenant result.name result.displayName (databaseDescriptor credentialsMissing)
        ∈ (createTenant credentialsMissing initialState).trace ∧
      ({ initialState with masterTenant := some { name := "master", _id := "t1" } } :
        RunState).masterTenant = some tenant ∧
      series credentialsMissing provisioningTasks initialState = .halt (Outcome.exit 1)
        ((createTenant credentialsMissing initialState).trace ++
          [Event.log ("Creating the super user account. This account can be used to manage everything on your "
              ++ credentialsMissing.productName ++ " instance."),
           Event.prompt ["email", "password", "retypePassword"],
           Event.logError "email is required",
           Event.log "\nFailed to create admin user account. Please check the console output.\n",
           Event.dbDestroy "tenant" (some tenant._id)]) ∧
      noUserCall (series credentialsMissing provisioningTasks initialState).trace = true :=
  createSuperUser_prompt_failure credentialsMissing initialState
    { initialState with masterTenant := some { name := "master", _id := "t1" } }
    (createTenant credentialsMissing initialState).trace "email is required"
    rfl rfl (by decide) rfl rfl

/-- In an interactive run that purges the stored models, the destroy of the `user`
model is in the trace of `createTenant`: such a run does issue a user deletion, which
is why the statement about user calls is kept to unattended runs. -/
theorem purge_run_destroys_user_model :
    existingTenant.IS_INTERACTIVE = true ∧
    Event.dbDestroy "user" none ∈ (createTenant existingTenant initialState).trace ∧
    noUserCall (createTenant existingTenant initialState).trace = false := by
  refine ⟨rfl, by decide, by decide⟩

/-- C9, counterexample: an unattended run reaches the credential prompt, the prompt
reports an error, the run exits with status 1, and the tenant-creation call has
been made earlier in that run. -/
theorem provisioning_credentials_counterexample :
    credentialsMissing.IS_INTERACTIVE = false ∧
    credentialsMissing.credentialPrompt = .error "email is required" ∧
    series credentialsMissing provisioningTasks initialState =
      .halt (Outcome.exit 1) (series credentialsMissing provisioningTasks initialState).trace ∧
    Event.createTenant "master" "Master" (databaseDescriptor credentialsMissing) ∈
      (series credentialsMissing provisioningTasks initialState).trace ∧
    Event.dbDestroy "tenant" (some "t1") ∈
      (series credentialsMissing provisioningTasks initialState).trace := by
  refine ⟨rfl, rfl, by decide, by decide, by decide⟩

/-! ## The whole run -/

/-- The task `configureEnvironment` hands on the state it was given. -/
theorem configureEnvironment_next_state (w : World) (s s1 : RunState) (tr : List Event)
    (h : configureEnvironment w s = .next s1 tr) : s1 = s := by
  unfold configureEnvironment at h
  cases ht : w.getLatestFrameworkVersion with
  | error e => simp [ht] at h
  | ok tag =>
    cases hc : w.configPrompt ("tags/" ++ tag) with
    | error e => simp [ht, hc] at h
    | ok results =>
      cases hsave : saveConfig w SaveSite.fromConfigureEnvironment results with
      | mk evs oo =>
        cases oo with
        | some o => simp [ht, hc, hsave] at h
        | none =>
          simp [ht, hc, hsave] at h
          exact h.1.symm

/-- What `installFramework` does when `configResults` holds a record: it calls the
installer with the repository and revision of that record. -/
theorem installFramework_with_record (w : World) (s : RunState) (r : Obj)
    (hs : s.configResults = some r) (hok : w.installFrameworkError = none) :
    installFramework w s = .next s
      [Event.installFramework (getProp r "frameworkRepository")
        (getProp r "frameworkRevision") true] := by
  simp [installFramework, hs, hok]

/-- C1, on the code: in every run in which the operator accepts the install, the
version lookup and the configuration prompt succeed and both writes report bytes,
the series stops in its second task: `installFramework` throws a TypeError on the
never-assigned `configResults`, the installer is not called, and the tenant, user
and build tasks do not run. -/
theorem start_accepted_throws_in_installFramework (w : World) (answer tag : String)
    (results : Obj)
    (hans : w.installPrompt = .ok answer) (hyes : matchesYesAtEnd answer.toList = true)
    (htag : w.getLatestFrameworkVersion = .ok tag)
    (hcfg : w.configPrompt ("tags/" ++ tag) = .ok results)
    (henv : w.envBytes SaveSite.fromConfigureEnvironment ≠ 0)
    (hjson : w.jsonBytes SaveSite.fromConfigureEnvironment ≠ 0) :
    start w =
      { trace :=
          [Event.log (if w.IS_INTERACTIVE = false
              then "This script will install the application. Please wait ..."
              else "This script will install the application. \nWould you like to continue?"),
           Event.prompt ["install"],
           Event.log (if w.IS_INTERACTIVE = false then "Now setting configuration items."
              else "We need to configure the tool before install. \nJust press ENTER to accept the default value (in brackets)."),
           Event.getLatestFrameworkVersion,
           Event.prompt configItemNames,
           Event.writeEnv (envContent results),
           Event.writeJson (structuredConfig w.cwd results)]
        outcome := Outcome.uncaught
          "TypeError: Cannot read property \x27frameworkRepository\x27 of undefined" } := by
  have hyes1 : matchesYesAtEnd answer.data = true := hyes
  simp [start, hans, hyes1, series, installTasks, configureEnvironment, htag, hcfg, saveConfig,
    henv, hjson, installFramework, initialState, StepResult.prepend, seriesDone]

theorem start_accepted_throws_in_installFramework_witness :
    (start calmWorld).outcome =
      Outcome.uncaught "TypeError: Cannot read property \x27frameworkRepository\x27 of undefined" ∧
    (start calmWorld).trace.length = 7 :=
  have h := start_accepted_throws_in_installFramework calmWorld "Y" "v2.2.5"
    [("serverPort", Val.num 5000), ("dbName", Val.str "adapt-tenant-master"),
     ("smtpService", Val.str ""),
     ("frameworkRepository", Val.str "https://github.com/adaptlearning/adapt_framework.git"),
     ("frameworkRevision", Val.str "tags/v2.2.5")]
    rfl (by decide) rfl rfl (by decide) (by decide)
  ⟨by rw [h], by rw [h]; rfl⟩

/-- C2, on the code: after `configureEnvironment` has collected and persisted a record,
`configResults` still holds no value, so `installFramework` throws a TypeError
before it calls the installer: no installer call with the repository and revision of
the record is made, and the series does not advance to tenant provisioning. -/
theorem installFramework_after_configureEnvironment (w : World) (s1 : RunState)
    (tr : List Event) (hconf : configureEnvironment w initialState = .next s1 tr) :
    s1.configResults = none ∧
    installFramework w s1 = .halt
      (Outcome.uncaught
        "TypeError: Cannot read property \x27frameworkRepository\x27 of undefined") [] ∧
    ∀ repository revision force,
      Event.installFramework repository revision force ∉
        (series w installTasks initialState).trace := by
  have hs1 : s1 = initialState := configureEnvironment_next_state w initialState s1 tr hconf
  subst hs1
  refine ⟨rfl, rfl, ?_⟩
  intro repository revision force hmem
  have hrun : series w installTasks initialState = .halt
      (Outcome.uncaught
        "TypeError: Cannot read property \x27frameworkRepository\x27 of undefined") (tr ++ []) := by
    simp only [series, installTasks, hconf]
    rfl
  rw [hrun] at hmem
  have htr : (configureEnvironment w initialState).trace = tr := by rw [hconf]; rfl
  rw [← htr] at hmem
  cases ht : w.getLatestFrameworkVersion with
  | error e => simp [configureEnvironment, ht] at hconf
  | ok tag =>
    cases hc : w.configPrompt ("tags/" ++ tag) with
    | error e => simp [configureEnvironment, ht, hc] at hconf
    | ok results =>
      by_cases he : w.envBytes SaveSite.fromConfigureEnvironment = 0
      · simp [configureEnvironment, ht, hc, saveConfig, he] at hconf
      · by_cases hj : w.jsonBytes SaveSite.fromConfigureEnvironment = 0
        · simp [configureEnvironment, ht, hc, saveConfig, he, hj] at hconf
        · simp [configureEnvironment, ht, hc, saveConfig, he, hj, StepResult.trace] at hmem

theorem installFramework_after_configureEnvironment_witness :
    installFramework calmWorld initialState = .halt
      (Outcome.uncaught
        "TypeError: Cannot read property \x27frameworkRepository\x27 of undefined") [] :=
  (installFramework_after_configureEnvironment calmWorld initialState
    (configureEnvironment calmWorld initialState).trace rfl).2.1

/-- With the tasks after `installFramework` run from the declared state in the calm
world, the series completes and the final callback exits with status 0: the
tenant, user and build tasks are live in the model, and only the throw in
`installFramework` keeps a full run from reaching them. -/
theorem provisioning_calm_run_completes :
    (seriesDone calmWorld (series calmWorld provisioningTasks initialState)).outcome =
      Outcome.exit 0 ∧
    Event.createTenant "master" "Master" (databaseDescriptor calmWorld) ∈
      (seriesDone calmWorld (series calmWorld provisioningTasks initialState)).trace ∧
    Event.grantSuperPermissions "u1" ∈
      (seriesDone calmWorld (series calmWorld provisioningTasks initialState)).trace := by
  refine ⟨by decide, by decide, by decide⟩

end Install
